import Mathlib

/-!
Verification development for the Coupang keyword rocket-delivery analyzer
(`src/main.py`).  The per-item classifiers, the ranking aggregation, the
per-keyword analyzer state machine and the batch-processing loop are
shallowly embedded as executable Lean definitions; browser I/O (navigation,
waits, denial checks, debug dumps, driver cleanup) is modelled by an
explicit environment record describing the outcome of each effectful step.
-/

namespace Sourcing

/-- Character-list prefix test, used to model Python's substring operator. -/
def matchesAt : List Char → List Char → Bool
  | [], _ => true
  | _ :: _, [] => false
  | a :: as, b :: bs => a == b && matchesAt as bs

/-- Does `needle` occur as a contiguous run somewhere in `hay`? -/
def hasSubstrAux (needle : List Char) : List Char → Bool
  | [] => needle.isEmpty
  | c :: rest => matchesAt needle (c :: rest) || hasSubstrAux needle rest

/-- Python's `needle in hay` substring containment on strings. -/
def hasSubstr (hay needle : String) : Bool :=
  hasSubstrAux needle.toList hay.toList

/-- Drop leading and trailing whitespace characters from a character list. -/
def stripChars (l : List Char) : List Char :=
  ((l.dropWhile Char.isWhitespace).reverse.dropWhile Char.isWhitespace).reverse

/-- Python's `str.strip()` modelled over the character list of a string. -/
def pyStrip (s : String) : String :=
  String.mk (stripChars s.toList)

/-- One rendered `li.search-product` card, described by the observations the
classifiers of `main.py` make on it: the text produced by the
`extract_rank_text` fallback chain, whether any of the `detect_ad` CSS
selectors matches, the card's full rendered text (`item.text`), and the
(alt-attribute, visible-text) pairs of its `img[alt], span, em, i`
descendants inspected by `detect_rocket_badge`. -/
structure Item where
  rankText : String
  adSelectorHit : Bool
  fullText : String
  badgeElems : List (String × String)
deriving DecidableEq

/-- `SearchResult` dataclass of `main.py` (ratio kept as an exact rational). -/
structure SearchResult where
  keyword : String
  organic_count : Nat
  rocket_count : Nat
  rocket_ratio : ℚ
  verdict : String
  error : String
deriving DecidableEq

/-- `parse_rank_number` of `main.py`: keep the digits of the rank label,
parse them as an integer, and accept only values in [1,10]. -/
def parse_rank_number (rank_text : String) : Option Nat :=
  if rank_text = "" then none
  else
    let digits := rank_text.toList.filter Char.isDigit
    if digits = [] then none
    else
      let rank := digits.foldl (fun acc c => acc * 10 + (c.toNat - 48)) 0
      if 1 ≤ rank ∧ rank ≤ 10 then some rank else none

/-- `detect_ad` of `main.py`: an ad-badge selector hit, or the literal
markers "AD" / "광고" in the card's full text. -/
def detect_ad (item : Item) : Bool :=
  item.adSelectorHit || hasSubstr item.fullText "AD" || hasSubstr item.fullText "광고"

/-- `detect_rocket_badge` of `main.py`: over the first 20 badge elements,
combine alt text and stripped visible text, join the non-empty snippets with
spaces, then classify with the specific marker "판매자로켓" first, the
generic marker "로켓" second, else "뱃지없음". -/
def detect_rocket_badge (item : Item) : String :=
  let badge_texts := (item.badgeElems.take 20).filterMap fun e =>
    let combined := pyStrip (e.1 ++ " " ++ pyStrip e.2)
    if combined = "" then none else some combined
  let full_text := String.intercalate " " badge_texts
  if hasSubstr full_text "판매자로켓" then "판매자로켓"
  else if hasSubstr full_text "로켓" then "로켓배송"
  else "뱃지없음"

/-- The `ranked_items` scan of `analyze_keyword` (main.py lines 335-357):
skip advertisement items and items without a parsable rank, keep the first
item seen at each rank (the dict is only written when the rank is absent),
and record that item's badge category.  The dict is modelled as an
association list that is never overwritten at an existing key. -/
def scan_items : List Item → List (Nat × String) → List (Nat × String)
  | [], acc => acc
  | item :: rest, acc =>
    match parse_rank_number item.rankText with
    | none => scan_items rest acc
    | some rank =>
      if detect_ad item then scan_items rest acc
      else if (acc.lookup rank).isSome then scan_items rest acc
      else if 1 ≤ rank ∧ rank ≤ 10 then scan_items rest ((rank, detect_rocket_badge item) :: acc)
      else scan_items rest acc

/-- Ranks 1 to 10, the window iterated by the counting loop. -/
def ranks_window : List Nat := (List.range 10).map (· + 1)

/-- The counting loop of `analyze_keyword` (main.py lines 359-364):
organic count is the number of ranks 1-10 present in the window, rocket
count the number of those whose recorded category is "로켓배송". -/
def count_window (w : List (Nat × String)) : Nat × Nat :=
  ((ranks_window.filter fun r => (w.lookup r).isSome).length,
   (ranks_window.filter fun r => decide (w.lookup r = some "로켓배송")).length)

example : parse_rank_number "15위" = none := by decide
example : parse_rank_number "7" = some 7 := by decide
example : parse_rank_number "" = none := by decide
example : detect_rocket_badge ⟨"", false, "", [("판매자로켓 로켓배송", "")]⟩ = "판매자로켓" := by decide

/-- Outcomes of the effectful steps taken by one `analyze_keyword` call.
Each `Option String` field is `none` when the step succeeds and
`some msg` when it raises an exception whose `str` is `msg`.
`denied1` is the value `is_access_denied` reports after the first wait;
`denied2` is whether the page reached by the retry is again a denial page —
the source never queries it (there is no second `is_access_denied` call),
so the embedded analyzer ignores this field.  `items` are the classified
`li.search-product` cards of the page that is finally scanned. -/
structure Env where
  createErr : Option String
  navWait1 : Option String
  denied1 : Bool
  navWait2 : Option String
  denied2 : Bool
  items : List Item
  classifyErr : Option String
  dumpErr : Option String
  cleanupErr : Option String
deriving DecidableEq

deriving instance DecidableEq for Except

/-- Result of one `analyze_keyword` call together with the observable
navigation trace: `result` is `.error m` when the call raises an exception
`m` to its caller (driver creation failed before the `try`, or
`cleanup_driver` raised in the `finally`), `.ok r` when it returns the
`SearchResult` `r`; `navCalls` counts `open_search_from_home`+wait rounds
and `cooldowns` counts the 30-60s denial sleeps. -/
structure AnalyzeTrace where
  result : Except String SearchResult
  navCalls : Nat
  cooldowns : Nat
deriving DecidableEq

/-- The `try` block of `analyze_keyword` (main.py lines 320-377): the first
exception raised becomes the error message, and the organic/rocket counters
hold whatever was accumulated before it was raised.  Navigation, wait,
denial-retry and classification all precede the counting loop, so those
failures leave the counters at 0; a test-mode debug-dump failure happens
after the counting loop, so the counters are retained. -/
def try_block (test_mode : Bool) (env : Env) : String × Nat × Nat :=
  match env.navWait1 with
  | some m => (m, 0, 0)
  | none =>
    match (if env.denied1 then env.navWait2 else none) with
    | some m => (m, 0, 0)
    | none =>
      match env.classifyErr with
      | some m => (m, 0, 0)
      | none =>
        let w := scan_items env.items []
        let counts := count_window w
        match (if test_mode then env.dumpErr else none) with
        | some m => (m, counts.1, counts.2)
        | none => ("", counts.1, counts.2)

/-- `analyze_keyword` of `main.py` (lines 313-392) as a function of the
step-outcome environment.  `create_driver()` runs before the `try`, so its
exception propagates; an exception of `cleanup_driver` in the `finally`
propagates as well (replacing any previously caught error); otherwise the
function returns a `SearchResult` built from the caught message and the
accumulated counters: ratio is rocket/organic (0 when organic is 0) and the
verdict is "PASS" for rocket ≤ 5, forced to "FAIL" on a non-empty error. -/
def analyze_keyword (keyword : String) (test_mode : Bool) (env : Env) : AnalyzeTrace :=
  match env.createErr with
  | some m => ⟨.error m, 0, 0⟩
  | none =>
    let retried := env.navWait1.isNone && env.denied1
    let navCalls := if retried then 2 else 1
    let cooldowns := if retried then 1 else 0
    let out := try_block test_mode env
    match env.cleanupErr with
    | some m => ⟨.error m, navCalls, cooldowns⟩
    | none =>
      let ratio : ℚ := if out.2.1 ≠ 0 then (out.2.2 : ℚ) / (out.2.1 : ℚ) else 0
      let verdict := if out.1 ≠ "" then "FAIL" else if out.2.2 ≤ 5 then "PASS" else "FAIL"
      ⟨.ok ⟨keyword, out.2.1, out.2.2, ratio, verdict, out.1⟩, navCalls, cooldowns⟩

/-- What one `analyze_keyword` call delivers to the batch runner. -/
def analyze_result (keyword : String) (test_mode : Bool) (env : Env) :
    Except String SearchResult :=
  (analyze_keyword keyword test_mode env).result

/-- The all-zero FAIL record the spec's FAILED state maps to. -/
def failed_result (keyword msg : String) : SearchResult :=
  ⟨keyword, 0, 0, 0, "FAIL", msg⟩

/-- The retry loop of `main` (main.py lines 415-426): fold over the three
attempt outcomes, remembering the last returned result and the last error
text (a raised exception updates only the error text), and stop as soon as
an attempt returns with an empty error. -/
def attempt_loop :
    List (Except String SearchResult) → Option SearchResult → String →
      Option SearchResult × String
  | [], res, last_error => (res, last_error)
  | o :: rest, res, _last_error =>
    match o with
    | .ok r => if r.error = "" then (some r, "") else attempt_loop rest (some r) r.error
    | .error m => attempt_loop rest res m

/-- The post-loop fixup of `main` (main.py lines 428-445): no result at all
gives the all-zero FAIL row; a trailing error keeps the last result's
counters and ratio but forces the verdict to "FAIL" with that error text. -/
def record_row (keyword : String) : Option SearchResult × String → SearchResult
  | (none, last_error) => ⟨keyword, 0, 0, 0, "FAIL", last_error⟩
  | (some r, last_error) =>
    if last_error = "" then r
    else ⟨keyword, r.organic_count, r.rocket_count, r.rocket_ratio, "FAIL", last_error⟩

/-- One keyword's three-attempt processing in the batch runner. -/
def run_keyword (keyword : String)
    (o1 o2 o3 : Except String SearchResult) : SearchResult :=
  record_row keyword (attempt_loop [o1, o2, o3] none "")

/-- Floor of a rational, written out so that it evaluates by `decide`. -/
def ratFloor (q : ℚ) : ℤ := Int.fdiv q.num q.den

/-- Python's banker-rounding `round(x, 4)` used when a row is written
(main.py line 451), modelled exactly over the rationals. -/
def py_round4 (q : ℚ) : ℚ :=
  let scaled := q * 10000
  let f : ℤ := ratFloor scaled
  let frac : ℚ := scaled - f
  let n : ℤ :=
    if frac < 1 / 2 then f
    else if 1 / 2 < frac then f + 1
    else if f % 2 = 0 then f else f + 1
  (n : ℚ) / 10000

/-- The `new_row` dictionary of `main` (main.py lines 447-454): the result
row with its ratio rounded to 4 decimal places. -/
def mk_row (r : SearchResult) : SearchResult :=
  { r with rocket_ratio := py_round4 r.rocket_ratio }

/-- The completed-keyword set loaded at startup (main.py line 404): the
keyword column of every persisted row, regardless of verdict or error. -/
def completed_of (table : List SearchResult) : List String :=
  table.map (·.keyword)

/-- In-memory state of the batch loop: the results table plus the list of
keywords actually handed to the analyzer (in order). -/
structure BatchState where
  table : List SearchResult
  attempted : List String
deriving DecidableEq

/-- One iteration of the keyword loop of `main` (main.py lines 411-456):
a keyword already in the completed set is skipped outright; otherwise its
three attempt outcomes are consumed, the resulting row is appended and the
keyword is recorded as attempted. -/
def step_keyword (completed : List String)
    (attempts : String →
      Except String SearchResult × Except String SearchResult × Except String SearchResult)
    (st : BatchState) (keyword : String) : BatchState :=
  if completed.contains keyword then st
  else
    let o := attempts keyword
    let row := mk_row (run_keyword keyword o.1 o.2.1 o.2.2)
    ⟨st.table ++ [row], st.attempted ++ [keyword]⟩

/-- The keyword loop of `main`, folded over the keyword list, starting from
the loaded table and an empty attempt log. -/
def main_loop (completed : List String)
    (attempts : String →
      Except String SearchResult × Except String SearchResult × Except String SearchResult)
    (table0 : List SearchResult) (keywords : List String) : BatchState :=
  keywords.foldl (step_keyword completed attempts) ⟨table0, []⟩

/-- The test-mode truncation of `main` (main.py lines 408-409): with the
test flag set and a non-empty list, only the first keyword survives. -/
def select_keywords (test : Bool) (keywords : List String) : List String :=
  if test && !keywords.isEmpty then keywords.take 1 else keywords

/-- An environment in which every effectful step succeeds, no denial page is
seen, and the scanned page consists of the given items. -/
def env_done (items : List Item) : Env :=
  ⟨none, none, false, none, false, items, none, none, none⟩

/-- Spec scenario A: 10 non-ad items ranked 1-10, three tagged 로켓배송
(rocket-delivery), two tagged 판매자로켓 (seller-fulfilled-rocket), the
rest without a badge. -/
def scenario_a_items : List Item :=
  [⟨"1", false, "", [("로켓배송", "")]⟩,
   ⟨"2", false, "", [("로켓배송", "")]⟩,
   ⟨"3", false, "", [("로켓배송", "")]⟩,
   ⟨"4", false, "", [("판매자로켓", "")]⟩,
   ⟨"5", false, "", [("판매자로켓", "")]⟩,
   ⟨"6", false, "", []⟩,
   ⟨"7", false, "", []⟩,
   ⟨"8", false, "", []⟩,
   ⟨"9", false, "", []⟩,
   ⟨"10", false, "", []⟩]

/-- C1: the badge count includes only items classified "로켓배송"
(rocket-delivery) and excludes "판매자로켓" (seller-fulfilled-rocket)
items, while both count toward the organic count: on a page of 10 non-ad
items ranked 1-10 with 3 tagged 로켓배송 and 2 tagged 판매자로켓 the
analyzer yields organic_count = 10, rocket (badge) count = 3, ratio = 0.3
and verdict "PASS".  Note the two 판매자로켓 snippets contain the generic
marker "로켓" as a substring, so the specific-marker-first priority of
`detect_rocket_badge` is what keeps them out of the badge count. -/
theorem scenario_a_badge_policy :
    analyze_result "무선마우스" false (env_done scenario_a_items) =
      .ok ⟨"무선마우스", 10, 3, 3 / 10, "PASS", ""⟩ := by
  have hw : count_window (scan_items scenario_a_items []) = (10, 3) := by decide
  simp [analyze_result, analyze_keyword, try_block, env_done, hw]

/-- C2: for every set of classified items given to the ranking aggregation,
the organic count is at most 10 and the badge count is at most the organic
count. -/
theorem window_counts_bounded (items : List Item) :
    (count_window (scan_items items [])).1 ≤ 10 ∧
    (count_window (scan_items items [])).2 ≤ (count_window (scan_items items [])).1 := by
  constructor
  · calc (count_window (scan_items items [])).1
        ≤ ranks_window.length := List.length_filter_le _ _
      _ = 10 := by decide
  · have hmono :=
      List.monotone_filter_right (l := ranks_window)
        (p := fun r => decide ((scan_items items []).lookup r = some "로켓배송"))
        (q := fun r => ((scan_items items []).lookup r).isSome)
        (fun r hr => by
          rw [decide_eq_true_eq] at hr
          simp [hr])
    exact hmono.length_le

/-- C3: a keyword attempt that ends in the FAILED state through a
navigation/wait timeout (first or retried wait) or a classification error
yields organic_count = 0, rocket_count = 0, ratio = 0, verdict "FAIL" and
the raised message as error; an attempt that reaches DONE yields the
computed counts, ratio = rocket/organic (0 when organic is 0), verdict
"PASS" exactly when rocket_count ≤ 5, and an empty error.  The hypothesis
`m ≠ ""` reflects that `str()` of the raised selenium exceptions is never
empty (they all render as "Message: ..."). -/
theorem analyze_state_to_result (kw m : String) (tm : Bool) (env : Env)
    (hm : m ≠ "") (hc : env.createErr = none) (hcl : env.cleanupErr = none) :
    (env.navWait1 = some m → analyze_result kw tm env = .ok (failed_result kw m)) ∧
    (env.navWait1 = none → env.denied1 = true → env.navWait2 = some m →
      analyze_result kw tm env = .ok (failed_result kw m)) ∧
    (env.navWait1 = none → (env.denied1 = true → env.navWait2 = none) →
      env.classifyErr = some m → analyze_result kw tm env = .ok (failed_result kw m)) ∧
    (env.navWait1 = none → (env.denied1 = true → env.navWait2 = none) →
      env.classifyErr = none → (tm = true → env.dumpErr = none) →
      analyze_result kw tm env =
        .ok ⟨kw, (count_window (scan_items env.items [])).1,
          (count_window (scan_items env.items [])).2,
          (if (count_window (scan_items env.items [])).1 = 0 then 0
            else ((count_window (scan_items env.items [])).2 : ℚ) /
              ((count_window (scan_items env.items [])).1 : ℚ)),
          (if (count_window (scan_items env.items [])).2 ≤ 5 then "PASS" else "FAIL"),
          ""⟩) := by
  refine ⟨?_, ?_, ?_, ?_⟩
  · intro h1
    simp [analyze_result, analyze_keyword, try_block, hc, hcl, h1, failed_result, hm]
  · intro h1 hd h2
    simp [analyze_result, analyze_keyword, try_block, hc, hcl, h1, hd, h2, failed_result, hm]
  · intro h1 hd h2
    cases hb : env.denied1 with
    | false => simp [analyze_result, analyze_keyword, try_block, hc, hcl, h1, hb, h2,
        failed_result, hm]
    | true => simp [analyze_result, analyze_keyword, try_block, hc, hcl, h1, hb, hd hb, h2,
        failed_result, hm]
  · intro h1 hd h2 hdump
    have hretry : (if env.denied1 then env.navWait2 else none) = none := by
      cases hb : env.denied1 with
      | false => rfl
      | true => simpa using hd hb
    have hdmp : (if tm then env.dumpErr else none) = none := by
      cases htm : tm with
      | false => rfl
      | true => simpa using hdump htm
    by_cases h0 : (count_window (scan_items env.items [])).1 = 0 <;>
      simp [analyze_result, analyze_keyword, try_block, hc, hcl, h1, hretry, h2, hdmp, h0]

/-- An environment where the first wait for result items times out. -/
def env_nav_timeout : Env :=
  ⟨none, some "Message: timeout", false, none, false, [], none, none, none⟩

/-- Witness for C3: a concrete timed-out attempt maps to the all-zero FAIL
record carrying the timeout message. -/
theorem analyze_state_to_result_witness :
    analyze_result "키워드" false env_nav_timeout =
      .ok (failed_result "키워드" "Message: timeout") :=
  (analyze_state_to_result "키워드" "Message: timeout" false env_nav_timeout
    (by decide) rfl rfl).1 rfl

/-- C4 (amended): when the analyzer detects an access-denial page after the
first wait, it sleeps one cooldown and performs exactly one retry of
navigate-plus-wait, and a timeout during that retry ends the attempt in the
FAILED mapping; the denial check is not repeated after the retry (see the
counterexample for the second-denial case). -/
theorem denial_cooldown_single_retry (kw m : String) (tm : Bool) (env : Env)
    (hm : m ≠ "") (hc : env.createErr = none) (h1 : env.navWait1 = none)
    (hd : env.denied1 = true) :
    (analyze_keyword kw tm env).cooldowns = 1 ∧
    (analyze_keyword kw tm env).navCalls = 2 ∧
    (env.navWait2 = some m → env.cleanupErr = none →
      analyze_result kw tm env = .ok (failed_result kw m)) := by
  refine ⟨?_, ?_, ?_⟩
  · cases hcl2 : env.cleanupErr <;> simp [analyze_keyword, hc, h1, hd, hcl2]
  · cases hcl2 : env.cleanupErr <;> simp [analyze_keyword, hc, h1, hd, hcl2]
  · intro h2 hcl
    simp [analyze_result, analyze_keyword, try_block, hc, hcl, h1, hd, h2, failed_result, hm]

/-- A one-item result page: rank 1, organic, rocket-delivery badge. -/
def second_denial_items : List Item :=
  [⟨"1", false, "", [("로켓배송", "")]⟩]

/-- The first page is denied, the retried page is again a denial page
(`denied2 = true`) but still renders result items. -/
def env_second_denial : Env :=
  ⟨none, none, true, none, true, second_denial_items, none, none, none⟩

/-- C4 counterexample: after the cooldown retry the code never calls
`is_access_denied` again, so a second denial whose page still contains
`li.search-product` items is classified as a normal page — the attempt ends
with verdict "PASS" and an empty error instead of transitioning to FAILED. -/
theorem second_denial_classified_as_normal :
    env_second_denial.denied2 = true ∧
    analyze_result "청소기" false env_second_denial =
      .ok ⟨"청소기", 1, 1, 1, "PASS", ""⟩ := by
  constructor
  · rfl
  · have hw : count_window (scan_items second_denial_items []) = (1, 1) := by decide
    simp [analyze_result, analyze_keyword, try_block, env_second_denial, hw]

/-- An environment where the retry wait after a denial times out. -/
def env_denied_retry_timeout : Env :=
  ⟨none, none, true, some "Message: retry timeout", false, [], none, none, none⟩

/-- Witness for C4: a concrete denied-then-timed-out attempt slept one
cooldown, navigated twice, and ended in the FAILED mapping. -/
theorem denial_cooldown_single_retry_witness :
    (analyze_keyword "k" false env_denied_retry_timeout).cooldowns = 1 ∧
    (analyze_keyword "k" false env_denied_retry_timeout).navCalls = 2 ∧
    analyze_result "k" false env_denied_retry_timeout =
      .ok (failed_result "k" "Message: retry timeout") := by
  have h := denial_cooldown_single_retry "k" "Message: retry timeout" false
    env_denied_retry_timeout (by decide) rfl rfl rfl
  exact ⟨h.1, h.2.1, h.2.2 rfl rfl⟩

/-- An environment where `create_driver` itself raises. -/
def env_create_fail : Env :=
  ⟨some "Chrome 경로를 찾을 수 없습니다.", none, false, none, false, [], none, none, none⟩

/-- C5 counterexample: `create_driver()` runs before the `try` block of
`analyze_keyword`, so an exception raised there (for example the missing-
Chrome `FileNotFoundError`) propagates to the caller instead of being
converted into a `SearchResult` — which is why `main` wraps the call in its
own try/except. -/
theorem create_driver_error_propagates :
    analyze_result "노트북" false env_create_fail =
      .error "Chrome 경로를 찾을 수 없습니다." := rfl

/-- C5 (amended): provided driver creation and the final cleanup succeed,
every exception arising during the analysis of a keyword is caught at the
analyzer boundary and the analyzer returns normally with the caught message
as the result's error field. -/
theorem analyze_no_throw (kw : String) (tm : Bool) (env : Env)
    (hc : env.createErr = none) (hcl : env.cleanupErr = none) :
    ∃ r : SearchResult, analyze_result kw tm env = .ok r ∧
      r.error = (try_block tm env).1 := by
  refine ⟨⟨kw, (try_block tm env).2.1, (try_block tm env).2.2,
      (if (try_block tm env).2.1 ≠ 0 then
        ((try_block tm env).2.2 : ℚ) / ((try_block tm env).2.1 : ℚ) else 0),
      (if (try_block tm env).1 ≠ "" then "FAIL"
        else if (try_block tm env).2.2 ≤ 5 then "PASS" else "FAIL"),
      (try_block tm env).1⟩, ?_, rfl⟩
  simp [analyze_result, analyze_keyword, hc, hcl]

/-- Witness for C5 (amended): the timed-out attempt still returns normally,
carrying the timeout message. -/
theorem analyze_no_throw_witness :
    ∃ r : SearchResult, analyze_result "k" false env_nav_timeout = .ok r ∧
      r.error = (try_block false env_nav_timeout).1 :=
  analyze_no_throw "k" false env_nav_timeout rfl rfl

/-- An attempt outcome whose returned result, if any, never pairs a
non-empty error with a verdict other than "FAIL".  Every `analyze_keyword`
return value has this property (see `analyze_ok_fail_on_error`). -/
def ok_inv (o : Except String SearchResult) : Prop :=
  ∀ r : SearchResult, o = Except.ok r → r.error ≠ "" → r.verdict = "FAIL"

/-- The analyzer itself already forces verdict "FAIL" whenever it returns a
non-empty error (main.py lines 382-384). -/
lemma analyze_ok_fail_on_error (kw : String) (tm : Bool) (env : Env) :
    ok_inv (analyze_result kw tm env) := by
  intro r h he
  cases hc : env.createErr with
  | some m => simp [analyze_result, analyze_keyword, hc] at h
  | none =>
    cases hcl : env.cleanupErr with
    | some m => simp [analyze_result, analyze_keyword, hc, hcl] at h
    | none =>
      simp only [analyze_result, analyze_keyword, hc, hcl, Except.ok.injEq] at h
      obtain rfl := h
      simp only at he
      simp [he]

/-- Whatever attempt outcomes feed the retry loop, as long as each returned
result respects `ok_inv`, the recorded row never pairs a non-empty error
with a verdict other than "FAIL". -/
lemma attempt_loop_fail_inv (kw : String) (os : List (Except String SearchResult)) :
    ∀ (res : Option SearchResult) (le : String),
      (∀ o ∈ os, ok_inv o) →
      (∀ r, res = some r → r.error ≠ "" → r.verdict = "FAIL") →
      (record_row kw (attempt_loop os res le)).error ≠ "" →
      (record_row kw (attempt_loop os res le)).verdict = "FAIL" := by
  induction os with
  | nil =>
    intro res le _ hres he
    cases res with
    | none => simp [attempt_loop, record_row]
    | some r =>
      by_cases hle : le = ""
      · simp [attempt_loop, record_row, hle] at he ⊢
        exact hres r rfl he
      · simp [attempt_loop, record_row, hle]
  | cons o rest ih =>
    intro res le hos hres he
    cases o with
    | error m =>
      simp only [attempt_loop] at he ⊢
      exact ih res m (fun o ho => hos o (List.mem_cons_of_mem _ ho)) hres he
    | ok r =>
      by_cases hr : r.error = ""
      · simp only [attempt_loop, hr] at he ⊢
        simp [record_row] at he ⊢
        exact absurd he (by simp [hr])
      · simp only [attempt_loop, hr] at he ⊢
        refine ih (some r) r.error (fun o ho => hos o (List.mem_cons_of_mem _ ho)) ?_ he
        intro r2 h2
        injection h2 with h2
        subst h2
        exact hos (Except.ok r) (List.mem_cons_self _ _) r rfl

/-- C6: for each keyword the batch runner tries the analyzer up to 3 times
and stops at the first attempt whose error is empty; if all three attempts
return a non-empty error, the recorded row keeps the last attempt's counts
and ratio but its verdict is forced to "FAIL" with the error preserved;
and a row with a non-empty error never carries verdict "PASS" (given that
each returned attempt result already satisfies the analyzer's own
error-implies-FAIL property `ok_inv`). -/
theorem batch_retry_policy (kw : String) (r1 r2 r3 : SearchResult)
    (o1 o2 o3 : Except String SearchResult)
    (hi1 : ok_inv o1) (hi2 : ok_inv o2) (hi3 : ok_inv o3) :
    (r1.error = "" → ∀ a b, run_keyword kw (.ok r1) a b = r1) ∧
    (r1.error ≠ "" → r2.error = "" → ∀ b, run_keyword kw (.ok r1) (.ok r2) b = r2) ∧
    (r1.error ≠ "" → r2.error ≠ "" → r3.error ≠ "" →
      run_keyword kw (.ok r1) (.ok r2) (.ok r3) =
        ⟨kw, r3.organic_count, r3.rocket_count, r3.rocket_ratio, "FAIL", r3.error⟩) ∧
    ((run_keyword kw o1 o2 o3).error ≠ "" → (run_keyword kw o1 o2 o3).verdict = "FAIL") := by
  refine ⟨?_, ?_, ?_, ?_⟩
  · intro h a b
    simp [run_keyword, attempt_loop, record_row, h]
  · intro h1 h2 b
    simp [run_keyword, attempt_loop, record_row, h1, h2]
  · intro h1 h2 h3
    simp [run_keyword, attempt_loop, record_row, h1, h2, h3]
  · intro he
    refine attempt_loop_fail_inv kw [o1, o2, o3] none "" ?_ (fun r h => nomatch h) he
    intro o ho
    simp only [List.mem_cons, List.mem_singleton] at ho
    rcases ho with rfl | rfl | rfl | h
    · exact hi1
    · exact hi2
    · exact hi3
    · exact absurd h (List.not_mem_nil o)

/-- Three returned attempts that all carry errors; the last one has partial
counts. -/
def r_err1 : SearchResult := ⟨"k", 0, 0, 0, "FAIL", "Message: e1"⟩

/-- Second erroring attempt for the C6 witness. -/
def r_err2 : SearchResult := ⟨"k", 0, 0, 0, "FAIL", "Message: e2"⟩

/-- Third erroring attempt for the C6 witness, with partial counts. -/
def r_err3 : SearchResult := ⟨"k", 4, 2, 1 / 2, "FAIL", "Message: e3"⟩

/-- Witness for C6: three erroring attempts give a row with the last
attempt's counts and ratio, verdict "FAIL" and the last error preserved. -/
theorem batch_retry_policy_witness :
    run_keyword "k" (.ok r_err1) (.ok r_err2) (.ok r_err3) =
      ⟨"k", 4, 2, 1 / 2, "FAIL", "Message: e3"⟩ := by
  have h := batch_retry_policy "k" r_err1 r_err2 r_err3
    (.ok r_err1) (.ok r_err2) (.ok r_err3)
    (fun r hr _ => by cases hr; rfl)
    (fun r hr _ => by cases hr; rfl)
    (fun r hr _ => by cases hr; rfl)
  exact h.2.2.1 (by decide) (by decide) (by decide)

/-- Since `parse_rank_number` filters its result into [1,10], any parsed
rank satisfies the window bounds. -/
lemma parse_rank_number_bounds (t : String) (r : Nat)
    (h : parse_rank_number t = some r) : 1 ≤ r ∧ r ≤ 10 := by
  simp only [parse_rank_number] at h
  split_ifs at h with h1 h2 h3
  injection h with h
  subst h
  assumption

/-- The item that wins rank `r`: the first non-advertisement item whose
rank label parses to `r`. -/
def first_organic_at (r : Nat) (it : Item) : Bool :=
  !detect_ad it && decide (parse_rank_number it.rankText = some r)

/-- The `ranked_items` scan with an arbitrary accumulator: a rank already
present keeps its value, and an absent rank gets the badge of the first
non-ad item carrying it. -/
lemma scan_items_lookup_acc (r : Nat) (items : List Item) :
    ∀ acc : List (Nat × String),
      (scan_items items acc).lookup r =
        (match acc.lookup r with
         | some b => some b
         | none => (items.find? (first_organic_at r)).map detect_rocket_badge) := by
  induction items with
  | nil => intro acc; cases h : acc.lookup r <;> simp [scan_items, h]
  | cons it rest ih =>
    intro acc
    cases hp : parse_rank_number it.rankText with
    | none =>
      have hpred : first_organic_at r it = false := by
        simp [first_organic_at, hp]
      simp [scan_items, hp, List.find?_cons, hpred, ih acc]
    | some k =>
      by_cases ha : detect_ad it
      · have hpred : first_organic_at r it = false := by
          simp [first_organic_at, ha]
        simp [scan_items, hp, ha, List.find?_cons, hpred, ih acc]
      · by_cases hacc : (acc.lookup k).isSome
        · by_cases hkr : k = r
          · subst hkr
            obtain ⟨b, hb⟩ := Option.isSome_iff_exists.mp hacc
            simp [scan_items, hp, ha, hacc, ih acc, hb]
          · have hpred : first_organic_at r it = false := by
              simp [first_organic_at, hp, hkr]
            simp [scan_items, hp, ha, hacc, List.find?_cons, hpred, ih acc]
        · have hbounds := parse_rank_number_bounds _ _ hp
          by_cases hkr : k = r
          · subst hkr
            have hpred : first_organic_at k it = true := by
              simp [first_organic_at, hp, ha]
            have hnone : acc.lookup k = none := by
              cases hl : acc.lookup k with
              | none => rfl
              | some b => rw [hl] at hacc; exact absurd rfl hacc
            simp [scan_items, hp, ha, hacc, hbounds, ih, List.find?_cons, hpred,
              List.lookup, hnone]
          · have hpred : first_organic_at r it = false := by
              simp [first_organic_at, hp, hkr]
            have hrk : (r == k) = false := beq_eq_false_iff_ne.mpr (Ne.symm hkr)
            have hstep : ((k, detect_rocket_badge it) :: acc).lookup r = acc.lookup r := by
              simp [List.lookup, hrk]
            simp [scan_items, hp, ha, hacc, hbounds, ih, List.find?_cons, hpred, hstep]

/-- C7: in the ranking window built from a page's items, the entry at each
rank is the badge category of the first-encountered non-advertisement item
whose label parses to that rank; every later item at the same rank —
advertisement or not, whatever its badge — leaves the window unchanged. -/
theorem window_first_organic_wins (items : List Item) (r : Nat) :
    (scan_items items []).lookup r =
      (items.find? (first_organic_at r)).map detect_rocket_badge := by
  simpa using scan_items_lookup_acc r items []

/-- The keywords the batch loop hands to the analyzer are exactly the input
keywords not in the completed set, in order. -/
lemma main_loop_attempted (c : List String)
    (f : String →
      Except String SearchResult × Except String SearchResult × Except String SearchResult)
    (kws : List String) :
    ∀ st : BatchState,
      (kws.foldl (step_keyword c f) st).attempted =
        st.attempted ++ kws.filter (fun kw => !(c.contains kw)) := by
  induction kws with
  | nil => intro st; simp
  | cons kw rest ih =>
    intro st
    by_cases h : kw ∈ c
    · simp [List.foldl_cons, step_keyword, h, List.filter_cons, ih]
    · simp [List.foldl_cons, step_keyword, h, List.filter_cons, ih, List.append_assoc]

/-- C8: a keyword whose exact text is already present in the loaded results
table is skipped entirely — the loop step leaves the batch state untouched
(no attempt, no appended row), and deleting the keyword from the input list
leaves the whole run's outcome unchanged. -/
theorem completed_keyword_skipped (c : List String)
    (f : String →
      Except String SearchResult × Except String SearchResult × Except String SearchResult)
    (t0 : List SearchResult) (st : BatchState) (pre post : List String) (kw : String)
    (h : c.contains kw = true) :
    step_keyword c f st kw = st ∧
    main_loop c f t0 (pre ++ kw :: post) = main_loop c f t0 (pre ++ post) := by
  have hm : kw ∈ c := by simpa using h
  constructor
  · simp [step_keyword, hm]
  · simp only [main_loop, List.foldl_append, List.foldl_cons]
    congr 1
    simp [step_keyword, hm]

/-- A fixed attempt oracle where every attempt raises. -/
def const_attempts :
    String →
      Except String SearchResult × Except String SearchResult × Except String SearchResult :=
  fun _ => (.error "Message: e", .error "Message: e", .error "Message: e")

/-- Witness for C8: a batch whose completed set holds "완료" does not touch
the state for that keyword. -/
theorem completed_keyword_skipped_witness :
    step_keyword ["완료"] const_attempts ⟨[], []⟩ "완료" = ⟨[], []⟩ ∧
    main_loop ["완료"] const_attempts [] ([] ++ "완료" :: []) =
      main_loop ["완료"] const_attempts [] ([] ++ []) :=
  completed_keyword_skipped ["완료"] const_attempts [] ⟨[], []⟩ [] [] "완료" (by decide)

/-- C9: with the test flag set and a non-empty keyword list, the list is
truncated to its first element before the loop, so the batch attempts at
most that one keyword and appends at most one row — every other keyword
gets no attempt and no output row. -/
theorem test_mode_single_keyword (c : List String)
    (f : String →
      Except String SearchResult × Except String SearchResult × Except String SearchResult)
    (t0 : List SearchResult) (k : String) (rest : List String) :
    select_keywords true (k :: rest) = [k] ∧
    ((main_loop c f t0 (select_keywords true (k :: rest))).attempted = [] ∨
      (main_loop c f t0 (select_keywords true (k :: rest))).attempted = [k]) ∧
    (main_loop c f t0 (select_keywords true (k :: rest))).table.length ≤ t0.length + 1 := by
  have hsel : select_keywords true (k :: rest) = [k] := by simp [select_keywords]
  refine ⟨hsel, ?_, ?_⟩ <;> rw [hsel]
  · by_cases h : k ∈ c
    · left
      simp [main_loop, step_keyword, h]
    · right
      simp [main_loop, step_keyword, h]
  · by_cases h : k ∈ c
    · simp [main_loop, step_keyword, h]
    · simp [main_loop, step_keyword, h]

/-- C10: the completed set is the keyword column of every loaded row, with
no regard to verdict or error, so a row persisted with verdict "FAIL" and a
non-empty error still marks its keyword completed and the keyword is never
re-attempted on a resumed run. -/
theorem failed_row_counts_as_completed (t0 : List SearchResult) (r : SearchResult)
    (f : String →
      Except String SearchResult × Except String SearchResult × Except String SearchResult)
    (kws : List String)
    (hmem : r ∈ t0) (_hv : r.verdict = "FAIL") (_he : r.error ≠ "") :
    (completed_of t0).contains r.keyword = true ∧
    r.keyword ∉ (main_loop (completed_of t0) f t0 kws).attempted := by
  have hc : (completed_of t0).contains r.keyword = true := by
    have : r.keyword ∈ completed_of t0 := List.mem_map_of_mem (·.keyword) hmem
    exact List.elem_eq_true_of_mem this
  refine ⟨hc, ?_⟩
  rw [main_loop, main_loop_attempted]
  intro hcontra
  simp only [List.nil_append] at hcontra
  have hfalse := (List.mem_filter.mp hcontra).2
  rw [hc] at hfalse
  exact absurd hfalse (by simp)

/-- A previously persisted FAIL row. -/
def row_failed : SearchResult := ⟨"노트북", 0, 0, 0, "FAIL", "Message: boom"⟩

/-- Witness for C10: the FAIL row's keyword is in the completed set and a
resumed run over it makes no attempt on it. -/
theorem failed_row_counts_as_completed_witness :
    (completed_of [row_failed]).contains row_failed.keyword = true ∧
    row_failed.keyword ∉
      (main_loop (completed_of [row_failed]) const_attempts [row_failed]
        ["노트북", "마우스"]).attempted :=
  failed_row_counts_as_completed [row_failed] row_failed const_attempts
    ["노트북", "마우스"] (List.mem_singleton.mpr rfl) rfl (by decide)

end Sourcing
